import Mathlib

/-!
Shallow embedding of `src/src/SimConnectSourceEvents/SimConnectSourceEvents.cpp`
(simconnect-toolbox). The block bridges a SimConnect event stream into seven
scalar output channels: events are registered at initialization, drained into a
flat accumulator (`data`) by `dispatchProcedure`, and the accumulator is copied
to the output signals and reset once per step by `output`.
-/

namespace SimConnectSourceEvents

/-- Tag value of event records; the constant SIMCONNECT_RECV_ID_EVENT from the
external SimConnect SDK header (its numeric value is opaque to this file; only
equality with a record's `dwID` matters). -/
def SIMCONNECT_RECV_ID_EVENT : Nat := 4

/-- A received record (`SIMCONNECT_RECV`, viewed as `SIMCONNECT_RECV_EVENT`
when `dwID = SIMCONNECT_RECV_ID_EVENT`): the record kind tag `dwID`, the local
event index `uEventID`, and the payload `dwData`. -/
structure Recv where
  dwID : Nat
  uEventID : Nat
  dwData : Nat
deriving DecidableEq, Repr

/-- The output accumulator: the seven per-channel fields of the member `data`
written by `dispatchProcedure` and read/reset by `output`. -/
structure Data where
  apMaster : Nat
  apMasterOff : Nat
  headingSlotIndexSet : Nat
  altitudeSlotIndexSet : Nat
  apPanelVsOn : Nat
  apLocHold : Nat
  apAprHold : Nat
deriving DecidableEq, Repr

/-- The baseline accumulator: every field 0 (the value the step reset writes). -/
def Data.zero : Data := ⟨0, 0, 0, 0, 0, 0, 0⟩

/-- `SimConnectSourceEvents::dispatchProcedure` (lines 278–331): a switch on
`pData->dwID`; for event records a switch on `event->uEventID` with cases 0–7
(6 and 7 fall through to the same assignment) and an empty default. -/
def dispatchProcedure (d : Data) (r : Recv) : Data :=
  if r.dwID = SIMCONNECT_RECV_ID_EVENT then
    if r.uEventID = 0 then { d with apMaster := 1 }
    else if r.uEventID = 1 then { d with apMasterOff := 1 }
    else if r.uEventID = 2 then { d with headingSlotIndexSet := r.dwData }
    else if r.uEventID = 3 then { d with altitudeSlotIndexSet := r.dwData }
    else if r.uEventID = 4 then { d with apPanelVsOn := 1 }
    else if r.uEventID = 5 then { d with apLocHold := 1 }
    else if r.uEventID = 6 ∨ r.uEventID = 7 then { d with apAprHold := 1 }
    else d
  else d

/-- `SimConnectSourceEvents::processDispatch` (lines 270–276): the
`while (SUCCEEDED(SimConnect_GetNextDispatch(...)))` loop, modelled as a fold
of `dispatchProcedure` over the finite queue of pending records. -/
def processDispatch (d : Data) (pending : List Recv) : Data :=
  pending.foldl dispatchProcedure d

/-- C1: the per-index dispatch table. -/
theorem dispatch_table (d : Data) (r : Recv)
    (h : r.dwID = SIMCONNECT_RECV_ID_EVENT) :
    (r.uEventID = 0 → dispatchProcedure d r = { d with apMaster := 1 }) ∧
    (r.uEventID = 1 → dispatchProcedure d r = { d with apMasterOff := 1 }) ∧
    (r.uEventID = 2 → dispatchProcedure d r = { d with headingSlotIndexSet := r.dwData }) ∧
    (r.uEventID = 3 → dispatchProcedure d r = { d with altitudeSlotIndexSet := r.dwData }) ∧
    (r.uEventID = 4 → dispatchProcedure d r = { d with apPanelVsOn := 1 }) ∧
    (r.uEventID = 5 → dispatchProcedure d r = { d with apLocHold := 1 }) ∧
    ((r.uEventID = 6 ∨ r.uEventID = 7) → dispatchProcedure d r = { d with apAprHold := 1 }) := by
  refine ⟨?_, ?_, ?_, ?_, ?_, ?_, ?_⟩ <;> intro hev
  case refine_7 => rcases hev with h67 | h67 <;> simp [dispatchProcedure, h, h67]
  all_goals simp [dispatchProcedure, h, hev]

/-- Witness for C1: a concrete event record with external index 7 sets the
channel-6 pulse field (the 6/7 merge) and nothing else. -/
theorem dispatch_table_witness :
    dispatchProcedure Data.zero ⟨SIMCONNECT_RECV_ID_EVENT, 7, 9⟩ =
      { Data.zero with apAprHold := 1 } :=
  (dispatch_table Data.zero ⟨SIMCONNECT_RECV_ID_EVENT, 7, 9⟩ rfl).2.2.2.2.2.2
    (Or.inr rfl)

/-- C8: a record that is not an event notification, or an event record whose
local index is not 0–7, leaves the accumulator unchanged (silent ignore). -/
theorem dispatch_ignores_noise (d : Data) (r : Recv)
    (h : r.dwID ≠ SIMCONNECT_RECV_ID_EVENT ∨ 8 ≤ r.uEventID) :
    dispatchProcedure d r = d := by
  rcases h with hid | hev
  · simp [dispatchProcedure, hid]
  · have h0 : r.uEventID ≠ 0 := by omega
    have h1 : r.uEventID ≠ 1 := by omega
    have h2 : r.uEventID ≠ 2 := by omega
    have h3 : r.uEventID ≠ 3 := by omega
    have h4 : r.uEventID ≠ 4 := by omega
    have h5 : r.uEventID ≠ 5 := by omega
    have h6 : r.uEventID ≠ 6 := by omega
    have h7 : r.uEventID ≠ 7 := by omega
    simp [dispatchProcedure, h0, h1, h2, h3, h4, h5, h6, h7]

/-- Witness for C8: a concrete non-event record (and a concrete event record
with index 8) leave a concrete accumulator untouched. -/
theorem dispatch_ignores_noise_witness :
    dispatchProcedure ⟨1, 0, 5, 0, 0, 1, 0⟩ ⟨3, 2, 99⟩ = ⟨1, 0, 5, 0, 0, 1, 0⟩ ∧
    dispatchProcedure Data.zero ⟨SIMCONNECT_RECV_ID_EVENT, 8, 99⟩ = Data.zero :=
  ⟨dispatch_ignores_noise ⟨1, 0, 5, 0, 0, 1, 0⟩ ⟨3, 2, 99⟩ (Or.inl (by decide)),
   dispatch_ignores_noise Data.zero ⟨SIMCONNECT_RECV_ID_EVENT, 8, 99⟩ (Or.inr (by decide))⟩

/-- The outputs of one step: the seven scalars written to output signals 0–6
(lines 224–230 write them in this order). -/
structure Outputs where
  out0 : Nat
  out1 : Nat
  out2 : Nat
  out3 : Nat
  out4 : Nat
  out5 : Nat
  out6 : Nat
deriving DecidableEq, Repr

/-- The copy of the accumulator fields into the seven output signals
(lines 224–230). -/
def outputsOf (d : Data) : Outputs :=
  ⟨d.apMaster, d.apMasterOff, d.headingSlotIndexSet, d.altitudeSlotIndexSet,
   d.apPanelVsOn, d.apLocHold, d.apAprHold⟩

/-- The state visible to a step: the accumulator member `data` and the queue of
records the next `processDispatch` will drain. -/
structure BlockState where
  data : Data
  pending : List Recv
deriving DecidableEq, Repr

/-- `SimConnectSourceEvents::output` (lines 203–243): resolve the 7 output
signal handles (`avail` says which resolve), returning `false` before any side
effect if one is missing; otherwise drain via `processDispatch`, copy the
accumulator into the signals, reset every accumulator field to 0 and return
`true`. Result: (return value, outputs written if any, state afterwards). -/
def output (avail : Fin 7 → Bool) (st : BlockState) : Bool × Option Outputs × BlockState :=
  if (List.finRange 7).all avail then
    (true, some (outputsOf (processDispatch st.data st.pending)), ⟨Data.zero, []⟩)
  else
    (false, none, st)

/-- All seven output signal handles resolve. -/
def allAvail : Fin 7 → Bool := fun _ => true

lemma processDispatch_cons (d : Data) (r : Recv) (rs : List Recv) :
    processDispatch d (r :: rs) = processDispatch (dispatchProcedure d r) rs := rfl

/-- A field only ever written to 1, by exactly the records satisfying `P`,
ends the drain at 1 exactly when some drained record satisfies `P`. -/
lemma pulse_fold (f : Data → Nat) (P : Recv → Prop) [DecidablePred P]
    (hset : ∀ d r, P r → f (dispatchProcedure d r) = 1)
    (hkeep : ∀ d r, ¬ P r → f (dispatchProcedure d r) = f d) :
    ∀ (rs : List Recv) (d : Data),
      f (processDispatch d rs) = if ∃ r ∈ rs, P r then 1 else f d := by
  intro rs
  induction rs with
  | nil => intro d; simp [processDispatch]
  | cons r rs ih =>
    intro d
    rw [processDispatch_cons, ih]
    by_cases hr : P r
    · have hx : ∃ x ∈ r :: rs, P x := ⟨r, List.mem_cons_self r rs, hr⟩
      rw [hset d r hr, if_pos hx]
      split <;> rfl
    · rw [hkeep d r hr]
      have hiff : (∃ x ∈ r :: rs, P x) ↔ ∃ x ∈ rs, P x := by
        constructor
        · rintro ⟨x, hx, hPx⟩
          rcases List.mem_cons.mp hx with rfl | hx2
          · exact absurd hPx hr
          · exact ⟨x, hx2, hPx⟩
        · rintro ⟨x, hx, hPx⟩
          exact ⟨x, List.mem_cons_of_mem _ hx, hPx⟩
      rw [if_congr hiff rfl rfl]

/-- A field only ever written with the record payload, by exactly the records
satisfying `p`, ends the drain at the payload of the last such record. -/
lemma value_fold (f : Data → Nat) (p : Recv → Bool)
    (hset : ∀ d r, p r = true → f (dispatchProcedure d r) = r.dwData)
    (hkeep : ∀ d r, p r = false → f (dispatchProcedure d r) = f d) :
    ∀ (rs : List Recv) (d : Data),
      f (processDispatch d rs) =
        match rs.reverse.find? p with
        | some r => r.dwData
        | none => f d := by
  intro rs
  induction rs with
  | nil => intro d; simp [processDispatch]
  | cons r rs ih =>
    intro d
    rw [processDispatch_cons, ih, List.reverse_cons, List.find?_append]
    cases hfind : rs.reverse.find? p with
    | some r2 => simp
    | none =>
      cases hp : p r with
      | true => simp [List.find?, hp, hset d r hp]
      | false => simp [List.find?, hp, hkeep d r hp]

/-- Whether a record is an event notification carrying local index `k`. -/
def firesIndex (k : Nat) (r : Recv) : Prop :=
  r.dwID = SIMCONNECT_RECV_ID_EVENT ∧ r.uEventID = k

instance (k : Nat) (r : Recv) : Decidable (firesIndex k r) := by
  unfold firesIndex; infer_instance

/-- C2: pulse channels of one step from the post-reset baseline. -/
theorem pulse_channels (rs : List Recv) :
    (output allAvail ⟨Data.zero, rs⟩).2.1 =
      some (outputsOf (processDispatch Data.zero rs)) ∧
    (outputsOf (processDispatch Data.zero rs)).out0 =
      (if ∃ r ∈ rs, firesIndex 0 r then 1 else 0) ∧
    (outputsOf (processDispatch Data.zero rs)).out1 =
      (if ∃ r ∈ rs, firesIndex 1 r then 1 else 0) ∧
    (outputsOf (processDispatch Data.zero rs)).out4 =
      (if ∃ r ∈ rs, firesIndex 4 r then 1 else 0) ∧
    (outputsOf (processDispatch Data.zero rs)).out5 =
      (if ∃ r ∈ rs, firesIndex 5 r then 1 else 0) ∧
    (outputsOf (processDispatch Data.zero rs)).out6 =
      (if ∃ r ∈ rs, firesIndex 6 r ∨ firesIndex 7 r then 1 else 0) := by
  have hset0 : ∀ d r, firesIndex 0 r → Data.apMaster (dispatchProcedure d r) = 1 := by
    rintro d r ⟨hid, hev⟩; simp [dispatchProcedure, hid, hev]
  have hkeep0 : ∀ d r, ¬ firesIndex 0 r →
      Data.apMaster (dispatchProcedure d r) = Data.apMaster d := by
    intro d r hr
    by_cases hid : r.dwID = SIMCONNECT_RECV_ID_EVENT
    · have hev : r.uEventID ≠ 0 := fun h0 => hr ⟨hid, h0⟩
      simp only [dispatchProcedure, if_pos hid]
      split_ifs <;> first | rfl | (exfalso; omega)
    · simp [dispatchProcedure, hid]
  have hset1 : ∀ d r, firesIndex 1 r → Data.apMasterOff (dispatchProcedure d r) = 1 := by
    rintro d r ⟨hid, hev⟩; simp [dispatchProcedure, hid, hev]
  have hkeep1 : ∀ d r, ¬ firesIndex 1 r →
      Data.apMasterOff (dispatchProcedure d r) = Data.apMasterOff d := by
    intro d r hr
    by_cases hid : r.dwID = SIMCONNECT_RECV_ID_EVENT
    · have hev : r.uEventID ≠ 1 := fun h1 => hr ⟨hid, h1⟩
      simp only [dispatchProcedure, if_pos hid]
      split_ifs <;> first | rfl | (exfalso; omega)
    · simp [dispatchProcedure, hid]
  have hset4 : ∀ d r, firesIndex 4 r → Data.apPanelVsOn (dispatchProcedure d r) = 1 := by
    rintro d r ⟨hid, hev⟩; simp [dispatchProcedure, hid, hev]
  have hkeep4 : ∀ d r, ¬ firesIndex 4 r →
      Data.apPanelVsOn (dispatchProcedure d r) = Data.apPanelVsOn d := by
    intro d r hr
    by_cases hid : r.dwID = SIMCONNECT_RECV_ID_EVENT
    · have hev : r.uEventID ≠ 4 := fun h4 => hr ⟨hid, h4⟩
      simp only [dispatchProcedure, if_pos hid]
      split_ifs <;> first | rfl | (exfalso; omega)
    · simp [dispatchProcedure, hid]
  have hset5 : ∀ d r, firesIndex 5 r → Data.apLocHold (dispatchProcedure d r) = 1 := by
    rintro d r ⟨hid, hev⟩; simp [dispatchProcedure, hid, hev]
  have hkeep5 : ∀ d r, ¬ firesIndex 5 r →
      Data.apLocHold (dispatchProcedure d r) = Data.apLocHold d := by
    intro d r hr
    by_cases hid : r.dwID = SIMCONNECT_RECV_ID_EVENT
    · have hev : r.uEventID ≠ 5 := fun h5 => hr ⟨hid, h5⟩
      simp only [dispatchProcedure, if_pos hid]
      split_ifs <;> first | rfl | (exfalso; omega)
    · simp [dispatchProcedure, hid]
  have hset6 : ∀ d r, (firesIndex 6 r ∨ firesIndex 7 r) →
      Data.apAprHold (dispatchProcedure d r) = 1 := by
    rintro d r (⟨hid, hev⟩ | ⟨hid, hev⟩) <;> simp [dispatchProcedure, hid, hev]
  have hkeep6 : ∀ d r, ¬ (firesIndex 6 r ∨ firesIndex 7 r) →
      Data.apAprHold (dispatchProcedure d r) = Data.apAprHold d := by
    intro d r hr
    by_cases hid : r.dwID = SIMCONNECT_RECV_ID_EVENT
    · have hev6 : r.uEventID ≠ 6 := fun h6 => hr (Or.inl ⟨hid, h6⟩)
      have hev7 : r.uEventID ≠ 7 := fun h7 => hr (Or.inr ⟨hid, h7⟩)
      simp only [dispatchProcedure, if_pos hid]
      split_ifs <;> first | rfl | (exfalso; omega)
    · simp [dispatchProcedure, hid]
  refine ⟨by simp [output, allAvail], ?_, ?_, ?_, ?_, ?_⟩
  · rw [show (outputsOf (processDispatch Data.zero rs)).out0 =
        Data.apMaster (processDispatch Data.zero rs) from rfl,
      pulse_fold Data.apMaster (firesIndex 0) hset0 hkeep0 rs Data.zero]
    rfl
  · rw [show (outputsOf (processDispatch Data.zero rs)).out1 =
        Data.apMasterOff (processDispatch Data.zero rs) from rfl,
      pulse_fold Data.apMasterOff (firesIndex 1) hset1 hkeep1 rs Data.zero]
    rfl
  · rw [show (outputsOf (processDispatch Data.zero rs)).out4 =
        Data.apPanelVsOn (processDispatch Data.zero rs) from rfl,
      pulse_fold Data.apPanelVsOn (firesIndex 4) hset4 hkeep4 rs Data.zero]
    rfl
  · rw [show (outputsOf (processDispatch Data.zero rs)).out5 =
        Data.apLocHold (processDispatch Data.zero rs) from rfl,
      pulse_fold Data.apLocHold (firesIndex 5) hset5 hkeep5 rs Data.zero]
    rfl
  · rw [show (outputsOf (processDispatch Data.zero rs)).out6 =
        Data.apAprHold (processDispatch Data.zero rs) from rfl,
      pulse_fold Data.apAprHold (fun r => firesIndex 6 r ∨ firesIndex 7 r) hset6 hkeep6 rs Data.zero]
    rfl

/-- C3: value channels of one step from the post-reset baseline equal the
payload of the last matching record drained, or 0 when none matched. -/
theorem value_channels (rs : List Recv) :
    (output allAvail ⟨Data.zero, rs⟩).2.1 =
      some (outputsOf (processDispatch Data.zero rs)) ∧
    (outputsOf (processDispatch Data.zero rs)).out2 =
      (match rs.reverse.find? (fun r => decide (firesIndex 2 r)) with
       | some r => r.dwData
       | none => 0) ∧
    (outputsOf (processDispatch Data.zero rs)).out3 =
      (match rs.reverse.find? (fun r => decide (firesIndex 3 r)) with
       | some r => r.dwData
       | none => 0) := by
  have hset2 : ∀ d r, (fun r => decide (firesIndex 2 r)) r = true →
      Data.headingSlotIndexSet (dispatchProcedure d r) = r.dwData := by
    intro d r hr
    obtain ⟨hid, hev⟩ := of_decide_eq_true hr
    simp [dispatchProcedure, hid, hev]
  have hkeep2 : ∀ d r, (fun r => decide (firesIndex 2 r)) r = false →
      Data.headingSlotIndexSet (dispatchProcedure d r) = Data.headingSlotIndexSet d := by
    intro d r hr
    have hnr : ¬ firesIndex 2 r := of_decide_eq_false hr
    by_cases hid : r.dwID = SIMCONNECT_RECV_ID_EVENT
    · have hev : r.uEventID ≠ 2 := fun h2 => hnr ⟨hid, h2⟩
      simp only [dispatchProcedure, if_pos hid]
      split_ifs <;> first | rfl | (exfalso; omega)
    · simp [dispatchProcedure, hid]
  have hset3 : ∀ d r, (fun r => decide (firesIndex 3 r)) r = true →
      Data.altitudeSlotIndexSet (dispatchProcedure d r) = r.dwData := by
    intro d r hr
    obtain ⟨hid, hev⟩ := of_decide_eq_true hr
    simp [dispatchProcedure, hid, hev]
  have hkeep3 : ∀ d r, (fun r => decide (firesIndex 3 r)) r = false →
      Data.altitudeSlotIndexSet (dispatchProcedure d r) = Data.altitudeSlotIndexSet d := by
    intro d r hr
    have hnr : ¬ firesIndex 3 r := of_decide_eq_false hr
    by_cases hid : r.dwID = SIMCONNECT_RECV_ID_EVENT
    · have hev : r.uEventID ≠ 3 := fun h3 => hnr ⟨hid, h3⟩
      simp only [dispatchProcedure, if_pos hid]
      split_ifs <;> first | rfl | (exfalso; omega)
    · simp [dispatchProcedure, hid]
  refine ⟨by simp [output, allAvail], ?_, ?_⟩
  · rw [show (outputsOf (processDispatch Data.zero rs)).out2 =
        Data.headingSlotIndexSet (processDispatch Data.zero rs) from rfl,
      value_fold Data.headingSlotIndexSet (fun r => decide (firesIndex 2 r)) hset2 hkeep2 rs
        Data.zero]
    cases List.find? (fun r => decide (firesIndex 2 r)) rs.reverse <;> rfl
  · rw [show (outputsOf (processDispatch Data.zero rs)).out3 =
        Data.altitudeSlotIndexSet (processDispatch Data.zero rs) from rfl,
      value_fold Data.altitudeSlotIndexSet (fun r => decide (firesIndex 3 r)) hset3 hkeep3 rs
        Data.zero]
    cases List.find? (fun r => decide (firesIndex 3 r)) rs.reverse <;> rfl

/-- C4: when some output signal handle does not resolve, the step returns
failure, writes no output, and leaves the state (accumulator and pending
queue) exactly as it was. -/
theorem output_fail_atomic (avail : Fin 7 → Bool) (st : BlockState)
    (h : ∃ i : Fin 7, avail i = false) :
    output avail st = (false, none, st) := by
  obtain ⟨i, hi⟩ := h
  have hna : ¬ ((List.finRange 7).all avail = true) := by
    intro hall
    have := List.all_eq_true.mp hall i (List.mem_finRange i)
    rw [hi] at this
    exact Bool.false_ne_true this
  simp [output, hna]

/-- Witness for C4: with handle 3 unresolvable, a step on a dirty state fails
and changes nothing. -/
theorem output_fail_atomic_witness :
    output (fun i => decide (i.val ≠ 3)) ⟨⟨1, 2, 3, 4, 5, 6, 7⟩, [⟨4, 0, 0⟩]⟩ =
      (false, none, ⟨⟨1, 2, 3, 4, 5, 6, 7⟩, [⟨4, 0, 0⟩]⟩) :=
  output_fail_atomic (fun i => decide (i.val ≠ 3)) ⟨⟨1, 2, 3, 4, 5, 6, 7⟩, [⟨4, 0, 0⟩]⟩
    ⟨3, by decide⟩

/-- C5: a successful step drains, copies the drained accumulator to the
outputs, resets the accumulator and empties the queue; the two following
steps with no incoming events output all zeros. -/
theorem output_success_order (avail : Fin 7 → Bool) (st : BlockState)
    (h : ∀ i, avail i = true) :
    output avail st =
      (true, some (outputsOf (processDispatch st.data st.pending)), ⟨Data.zero, []⟩) ∧
    (output avail (output avail st).2.2).2.1 = some ⟨0, 0, 0, 0, 0, 0, 0⟩ ∧
    (output avail (output avail (output avail st).2.2).2.2).2.1 =
      some ⟨0, 0, 0, 0, 0, 0, 0⟩ := by
  have hall : (List.finRange 7).all avail = true := by
    rw [List.all_eq_true]; intro i _; exact h i
  refine ⟨by simp [output, hall], ?_, ?_⟩
  · simp [output, hall, processDispatch, outputsOf, Data.zero]
  · simp [output, hall, processDispatch, outputsOf, Data.zero]

/-- Witness for C5: the spec's worked example, records for indices 0, 2
(payload 3) and 7 in one window, stepped from the baseline with all handles
resolvable. -/
theorem output_success_order_witness :
    output allAvail ⟨Data.zero, [⟨4, 0, 0⟩, ⟨4, 2, 3⟩, ⟨4, 7, 0⟩]⟩ =
      (true,
       some (outputsOf (processDispatch Data.zero [⟨4, 0, 0⟩, ⟨4, 2, 3⟩, ⟨4, 7, 0⟩])),
       ⟨Data.zero, []⟩) ∧
    (output allAvail
        (output allAvail ⟨Data.zero, [⟨4, 0, 0⟩, ⟨4, 2, 3⟩, ⟨4, 7, 0⟩]⟩).2.2).2.1 =
      some ⟨0, 0, 0, 0, 0, 0, 0⟩ ∧
    (output allAvail
        (output allAvail
          (output allAvail ⟨Data.zero, [⟨4, 0, 0⟩, ⟨4, 2, 3⟩, ⟨4, 7, 0⟩]⟩).2.2).2.2).2.1 =
      some ⟨0, 0, 0, 0, 0, 0, 0⟩ :=
  output_success_order allAvail ⟨Data.zero, [⟨4, 0, 0⟩, ⟨4, 2, 3⟩, ⟨4, 7, 0⟩]⟩
    (fun _ => rfl)

/-- Results of the external calls made during `SimConnectSourceEvents::initialize`
(lines 134–201): the base-class init, the two parameter-parsing stages, the two
`getParameter` reads, `SimConnect_Open`, per-call results of
`SimConnect_MapClientEventToSimEvent` (by event id and name) and of
`SimConnect_AddClientEventToNotificationGroup` (by event id and mask flag),
and `SimConnect_SetNotificationGroupPriority`. `true` means the call succeeded
(`SUCCEEDED`, i.e. not `FAILED`). -/
structure SimApi where
  blockInitOk : Bool
  parseParametersOk : Bool
  getConfigurationIndexOk : Bool
  getConnectionNameOk : Bool
  openOk : Bool
  mapClientEventOk : Nat → String → Bool
  addToGroupOk : Nat → Nat → Bool
  priorityOk : Bool

/-- `SimConnectSourceEvents::addEvent` (lines 256–268): map the client event to
the sim event name, then attach it to notification group 0 with mask flag
`shouldMask ? 1 : 0`; fail on the first failing call. -/
def addEvent (api : SimApi) (eventId : Nat) (eventName : String) (shouldMask : Bool) : Bool :=
  if api.mapClientEventOk eventId eventName = false then false
  else if api.addToGroupOk eventId (if shouldMask then 1 else 0) = false then false
  else true

/-- The static event bindings registered at lines 175–182, in call order:
(local event index, external event name, mask flag). -/
def eventBindings : List (Nat × String × Bool) :=
  [(0, "AP_MASTER", true),
   (1, "AUTOPILOT_OFF", false),
   (2, "HEADING_SLOT_INDEX_SET", false),
   (3, "ALTITUDE_SLOT_INDEX_SET", false),
   (4, "AP_PANEL_VS_ON", false),
   (5, "AP_LOC_HOLD", false),
   (6, "AP_LOC_HOLD_OFF", false),
   (7, "AP_APR_HOLD_ON", false)]

/-- `SimConnectSourceEvents::initialize` (lines 134–201): base init, parameter
parsing, the two parameter reads, `SimConnect_Open`, then the chain
`boolResult &= addEvent(...)` over `eventBindings` (a left fold with `&&`, so
every registration is attempted even after an earlier one failed), the
notification-group priority call, and the final
`if (FAILED(result) || !boolResult) return false`. -/
def initialization (api : SimApi) : Bool :=
  if api.blockInitOk = false then false
  else if api.parseParametersOk = false then false
  else if api.getConfigurationIndexOk = false then false
  else if api.getConnectionNameOk = false then false
  else if api.openOk = false then false
  else
    let boolResult :=
      eventBindings.foldl (fun acc b => acc && addEvent api b.1 b.2.1 b.2.2) true
    if api.priorityOk = false || boolResult = false then false
    else true

lemma foldl_and_eq_all {α : Type} (f : α → Bool) (l : List α) (b : Bool) :
    l.foldl (fun acc x => acc && f x) b = (b && l.all f) := by
  induction l generalizing b with
  | nil => simp
  | cons x l ih => simp [List.foldl_cons, ih, List.all_cons, Bool.and_assoc]

lemma addEvent_eq (api : SimApi) (eventId : Nat) (eventName : String) (shouldMask : Bool) :
    addEvent api eventId eventName shouldMask =
      (api.mapClientEventOk eventId eventName &&
       api.addToGroupOk eventId (if shouldMask then 1 else 0)) := by
  unfold addEvent
  cases h1 : api.mapClientEventOk eventId eventName <;>
    cases h2 : api.addToGroupOk eventId (if shouldMask then 1 else 0) <;> simp [h1, h2]

lemma initialization_eq_true_iff (api : SimApi)
    (h1 : api.blockInitOk = true) (h2 : api.parseParametersOk = true)
    (h3 : api.getConfigurationIndexOk = true) (h4 : api.getConnectionNameOk = true) :
    initialization api = true ↔
      (api.openOk = true ∧
       (∀ b ∈ eventBindings, addEvent api b.1 b.2.1 b.2.2 = true) ∧
       api.priorityOk = true) := by
  cases ho : api.openOk <;> cases hp : api.priorityOk <;>
    cases hall : eventBindings.all (fun b => addEvent api b.1 b.2.1 b.2.2) <;>
    simp [initialization, h1, h2, h3, h4, ho, hp, hall, foldl_and_eq_all,
      ← List.all_eq_true]

/-- C6: with the parameter stages succeeding, initialization reports success
exactly when the connection open, every per-binding sub-registration, and the
notification-group priority call all succeed — so any single failure, wherever
it sits in the sequence, makes the whole initialization fail. -/
theorem initialization_atomic (api : SimApi)
    (h1 : api.blockInitOk = true) (h2 : api.parseParametersOk = true)
    (h3 : api.getConfigurationIndexOk = true) (h4 : api.getConnectionNameOk = true) :
    initialization api = true ↔
      (api.openOk = true ∧
       (∀ b ∈ eventBindings, addEvent api b.1 b.2.1 b.2.2 = true) ∧
       api.priorityOk = true) :=
  initialization_eq_true_iff api h1 h2 h3 h4

/-- An environment in which every external call succeeds. -/
def apiAllOk : SimApi :=
  ⟨true, true, true, true, true, fun _ _ => true, fun _ _ => true, true⟩

/-- An environment in which only the very first name registration
(index 0, "AP_MASTER") fails; every later call succeeds. -/
def apiFirstMapFails : SimApi :=
  ⟨true, true, true, true, true, fun e _ => decide (e ≠ 0), fun _ _ => true, true⟩

/-- Witness for C6: with everything succeeding initialization succeeds, and
with only the first name registration failing (all later registrations
succeeding) it fails. -/
theorem initialization_atomic_witness :
    initialization apiAllOk = true ∧ ¬ (initialization apiFirstMapFails = true) :=
  ⟨(initialization_atomic apiAllOk rfl rfl rfl rfl).mpr ⟨rfl, by decide, rfl⟩,
   fun h =>
     absurd (((initialization_atomic apiFirstMapFails rfl rfl rfl rfl).mp h).2.1
       (0, "AP_MASTER", true) (by decide)) (by decide)⟩

/-- Counterexample for C7: the registry does not define seven bindings — the
static binding list has eight entries (local indices 0–7). -/
theorem eventBindings_not_seven : ¬ (eventBindings.length = 7) := by decide

/-- C7 (amended): the Event Registry statically defines exactly eight event
bindings, and initialization performs its two sub-registrations (name mapping
and notification-group attachment) for each of these 8 bindings. -/
theorem registry_eight_bindings (api : SimApi)
    (h1 : api.blockInitOk = true) (h2 : api.parseParametersOk = true)
    (h3 : api.getConfigurationIndexOk = true) (h4 : api.getConnectionNameOk = true)
    (h5 : api.openOk = true) (h6 : api.priorityOk = true) :
    eventBindings.length = 8 ∧
    (initialization api = true ↔
      ∀ b ∈ eventBindings,
        api.mapClientEventOk b.1 b.2.1 = true ∧
        api.addToGroupOk b.1 (if b.2.2 then 1 else 0) = true) := by
  refine ⟨rfl, ?_⟩
  rw [initialization_eq_true_iff api h1 h2 h3 h4]
  simp [h5, h6, addEvent_eq]

/-- Witness for C7's amended theorem: in the all-succeeding environment,
initialization succeeds and both sub-registrations of all eight bindings are
consulted successfully. -/
theorem registry_eight_bindings_witness :
    eventBindings.length = 8 ∧
    (initialization apiAllOk = true ↔
      ∀ b ∈ eventBindings,
        apiAllOk.mapClientEventOk b.1 b.2.1 = true ∧
        apiAllOk.addToGroupOk b.1 (if b.2.2 then 1 else 0) = true) :=
  registry_eight_bindings apiAllOk rfl rfl rfl rfl rfl rfl

/-- C10: exactly one binding is masked — index 0, "AP_MASTER"; indices 1–7 are
registered unmasked, and the group-attachment call receives mask flag 1
exactly for index 0 and 0 for every other index. -/
theorem masked_binding_unique :
    (eventBindings.filter fun b => b.2.2).map (fun b => (b.1, b.2.1)) = [(0, "AP_MASTER")] ∧
    (∀ b ∈ eventBindings, b.2.2 = true ↔ b.1 = 0) ∧
    (∀ api : SimApi, ∀ b ∈ eventBindings,
      addEvent api b.1 b.2.1 b.2.2 =
        (api.mapClientEventOk b.1 b.2.1 &&
         api.addToGroupOk b.1 (if b.1 = 0 then 1 else 0))) := by
  refine ⟨by decide, by decide, ?_⟩
  intro api b hb
  fin_cases hb <;> rw [addEvent_eq] <;> norm_num

/-- The private members of a block instance after a successful initialization:
`configurationIndex` and `connectionName` stored by `initialize`
(lines 148–158), the accumulator `data`, and the queue of records not yet
drained. -/
structure Component where
  configurationIndex : Int
  connectionName : String
  data : Data
  pending : List Recv

/-- A freshly initialized component: the two parameters as read at
initialization, the accumulator at baseline, nothing pending. -/
def initComponent (cfgIndex : Int) (connName : String) : Component :=
  ⟨cfgIndex, connName, Data.zero, []⟩

/-- The external source queueing records between steps. -/
def injectRecords (c : Component) (rs : List Recv) : Component :=
  { c with pending := c.pending ++ rs }

/-- One invocation of `output` on a component instance: only the accumulator
and the pending queue take part; the stored parameters are untouched. -/
def stepComponent (avail : Fin 7 → Bool) (c : Component) : (Bool × Option Outputs) × Component :=
  let r := output avail ⟨c.data, c.pending⟩
  ((r.1, r.2.1), { c with data := r.2.2.data, pending := r.2.2.pending })

/-- A run: for each step window, inject that window's records, then step with
all signal handles resolvable; collect each step's (result, outputs). -/
def run (c : Component) (windows : List (List Recv)) : List (Bool × Option Outputs) :=
  match windows with
  | [] => []
  | rs :: rest =>
    let s := stepComponent allAvail (injectRecords c rs)
    s.1 :: run s.2 rest

lemma run_depends_only_on_data_pending :
    ∀ (windows : List (List Recv)) (c1 c2 : Component),
      c1.data = c2.data → c1.pending = c2.pending → run c1 windows = run c2 windows := by
  intro windows
  induction windows with
  | nil => intro c1 c2 _ _; rfl
  | cons rs rest ih =>
    intro c1 c2 hd hp
    simp only [run, stepComponent, injectRecords]
    rw [hd, hp]
    exact congrArg (List.cons _) (ih _ _ rfl rfl)

/-- C9: runs that differ only in the ConfigurationIndex read at initialization
and receive the same record stream produce identical step results on all
channels at every step. -/
theorem configurationIndex_independent (cfg1 cfg2 : Int) (connName : String)
    (windows : List (List Recv)) :
    run (initComponent cfg1 connName) windows = run (initComponent cfg2 connName) windows :=
  run_depends_only_on_data_pending windows _ _ rfl rfl

end SimConnectSourceEvents
